import Mathlib

/-!
Shallow embedding of the taskflow-api authorization core: the permission
model (internal/models/role.go, part_005), the JWT token issuer/verifier
(internal/database/mongodb.go utils section, internal/services/auth_service.go),
the user/role/task store operations (part_003, part_004) and the HTTP
handlers for role updates and task CRUD (internal/handlers/user_handler.go,
internal/handlers/task_handler.go).  MongoDB collections are modelled as
in-memory lists threaded through the functions; `time.Now()` is an explicit
`Nat` parameter (Unix seconds); HMAC-SHA256 is modelled as an ideal MAC (the
signature is the pair of payload and key, so verification succeeds exactly
when the recomputed tag coincides); bcrypt is modelled as a deterministic
injective tag, which is what `CheckPasswordHash` observes.
-/

namespace Taskflow

/-- Models go.mongodb.org primitive.ObjectID; `hex` is the value Hex() returns. -/
structure ObjectID where
  hex : String
deriving DecidableEq

/-- Is `c` an ASCII hexadecimal digit? Mirrors what encoding/hex accepts. -/
def isHexChar (c : Char) : Bool :=
  ('0' ≤ c && c ≤ '9') || ('a' ≤ c && c ≤ 'f') || ('A' ≤ c && c ≤ 'F')

/-- Models primitive.ObjectIDFromHex: a 24-character hex string decodes, anything else errors. -/
def ObjectIDFromHex (s : String) : Except String ObjectID :=
  if s.length = 24 && s.toList.all isHexChar then .ok ⟨s⟩
  else .error "the provided hex string is not a valid ObjectID"

/-- The all-zero ObjectID, Go's zero value for the type. -/
def NilObjectID : ObjectID := ⟨"000000000000000000000000"⟩

/-- models.Permission: one allowed action string. -/
structure Permission where
  action : String
deriving DecidableEq

/-- models.Role: name plus permission list. -/
structure Role where
  id : ObjectID
  name : String
  permissions : List Permission
deriving DecidableEq

/-- models.User. CreatedAt/UpdatedAt are Unix seconds. -/
structure User where
  id : ObjectID
  firstName : String
  lastName : String
  email : String
  password : String
  roleID : ObjectID
  profilePictureURL : String
  isEmailVerified : Bool
  needsPasswordChange : Bool
  createdAt : Nat
  updatedAt : Nat
deriving DecidableEq

/-- models.UserResponse as built by UserService. -/
structure UserResponse where
  id : String
  firstName : String
  lastName : String
  email : String
  roleName : String
  profilePictureURL : String
  isEmailVerified : Bool
  needsPasswordChange : Bool
  createdAt : Nat
  updatedAt : Nat
deriving DecidableEq

/-- models.TaskStatus is a string type in the source. -/
abbrev TaskStatus := String

/-- models.StatusTodo. -/
def StatusTodo : TaskStatus := "todo"

/-- models.StatusInProgress. -/
def StatusInProgress : TaskStatus := "in_progress"

/-- models.StatusDone. -/
def StatusDone : TaskStatus := "done"

/-- models.Task. -/
structure Task where
  id : ObjectID
  title : String
  description : String
  status : TaskStatus
  userID : ObjectID
  createdAt : Nat
  updatedAt : Nat
deriving DecidableEq

/-- models.UpdateUserRoleRequest. -/
structure UpdateUserRoleRequest where
  roleName : String
deriving DecidableEq

/-- models.CreateTaskRequest. -/
structure CreateTaskRequest where
  title : String
  description : String
  status : String
deriving DecidableEq

/-- models.UpdateTaskRequest: all fields optional. -/
structure UpdateTaskRequest where
  title : Option String
  description : Option String
  status : Option String
deriving DecidableEq

/-- models.AuthContext: the request-scoped authorization context. -/
structure AuthContext where
  userID : ObjectID
  roleID : ObjectID
  roleName : String
  permissions : List Permission
  isEmailVerified : Bool
  needsPasswordChange : Bool
deriving DecidableEq

/-- AuthContext.HasPermission: linear membership scan over the permission list. -/
def AuthContext.HasPermission (ac : AuthContext) (permission : String) : Bool :=
  ac.permissions.any fun p => p.action == permission

/-- models.DefaultRoles: the compiled-in role table used for seeding. -/
def DefaultRoles : List Role := [
  { id := NilObjectID, name := "Admin", permissions := [
      ⟨"task:create"⟩, ⟨"task:read_all"⟩, ⟨"task:update_all"⟩, ⟨"task:delete_all"⟩,
      ⟨"user:read_all"⟩, ⟨"user:update_role"⟩, ⟨"user:update_profile"⟩, ⟨"user:verify_email"⟩,
      ⟨"user:create_admin"⟩, ⟨"dashboard:read_metrics"⟩] },
  { id := NilObjectID, name := "Manager", permissions := [
      ⟨"task:create"⟩, ⟨"task:read_all"⟩, ⟨"task:update_all"⟩, ⟨"task:delete_all"⟩,
      ⟨"user:update_profile"⟩] },
  { id := NilObjectID, name := "User", permissions := [
      ⟨"task:create"⟩, ⟨"task:read_own"⟩, ⟨"task:update_own"⟩, ⟨"task:delete_own"⟩,
      ⟨"user:update_profile"⟩] }]

/-- Signing algorithms: the HMAC family member the code uses plus one
non-HMAC algorithm so the algorithm check in jwt.Parse is observable. -/
inductive Alg where
  | HS256
  | RS256
deriving DecidableEq

/-- Does the algorithm belong to jwt.SigningMethodHMAC? -/
def Alg.isHMAC : Alg → Bool
  | .HS256 => true
  | .RS256 => false

/-- jwt.MapClaims restricted to the keys this codebase ever sets. -/
structure MapClaims where
  user_id : Option String
  email : Option String
  role_id : Option String
  exp : Option Nat
  iss : Option String
  aud : Option String
deriving DecidableEq

/-- An HMAC tag, modelled as an ideal MAC: the tag is determined by the
algorithm, the signed payload and the key, and two tags are equal exactly
when those inputs are (no collisions). -/
structure Sig where
  alg : Alg
  payload : MapClaims
  key : String
deriving DecidableEq

/-- Compute the ideal-MAC tag for a payload under a key. -/
def hmacSign (alg : Alg) (payload : MapClaims) (key : String) : Sig :=
  ⟨alg, payload, key⟩

/-- A compact signed token: header algorithm, claims, signature. -/
structure Token where
  alg : Alg
  claims : MapClaims
  sig : Sig
deriving DecidableEq

/-- utils.GenerateToken: session token, 24h expiry, issuer taskflow-api. -/
def GenerateToken (userID : ObjectID) (email : String) (roleID : ObjectID)
    (secretKey : String) (now : Nat) : Token :=
  let claims : MapClaims :=
    ⟨some userID.hex, some email, some roleID.hex, some (now + 24 * 3600),
     some "taskflow-api", some "taskflow-clients"⟩
  ⟨.HS256, claims, hmacSign .HS256 claims secretKey⟩

/-- utils.GeneratePasswordResetToken: 1h expiry, issuer taskflow-api-reset. -/
def GeneratePasswordResetToken (userID : ObjectID) (secretKey : String) (now : Nat) : Token :=
  let claims : MapClaims :=
    ⟨some userID.hex, none, none, some (now + 3600), some "taskflow-api-reset", none⟩
  ⟨.HS256, claims, hmacSign .HS256 claims secretKey⟩

/-- utils.GenerateVerificationToken: takes the user id as a hex string,
24h expiry, issuer taskflow-api-verify. -/
def GenerateVerificationToken (userID : String) (secretKey : String) (now : Nat) : Token :=
  let claims : MapClaims :=
    ⟨some userID, none, none, some (now + 24 * 3600), some "taskflow-api-verify", none⟩
  ⟨.HS256, claims, hmacSign .HS256 claims secretKey⟩

/-- jwt.Parse with a keyfunc that rejects non-HMAC algorithms and returns
`secretKey`: checks the algorithm family, recomputes and compares the
signature, then checks the exp claim against the current time. -/
def jwtParse (tok : Token) (secretKey : String) (now : Nat) : Except String MapClaims :=
  if !tok.alg.isHMAC then .error "unexpected signing method"
  else if !(tok.sig == hmacSign tok.alg tok.claims secretKey) then .error "signature is invalid"
  else match tok.claims.exp with
    | some e => if now < e then .ok tok.claims else .error "token is expired"
    | none => .ok tok.claims

/-- utils.HashPassword: bcrypt modelled as a deterministic injective tag. -/
def HashPassword (password : String) : String := "bcrypt$" ++ password

/-- utils.CheckPasswordHash: true exactly when the hash matches the password. -/
def CheckPasswordHash (password hash : String) : Bool := hash == HashPassword password

/-- The document store: the users, roles and tasks collections as lists. -/
structure DB where
  users : List User
  roles : List Role
  tasks : List Task
deriving DecidableEq

/-- UserService.GetUserByID: validates the hex id, then looks the user up. -/
def UserService.GetUserByID (db : DB) (id : String) : Except String User :=
  match ObjectIDFromHex id with
  | .error _ => .error "invalid user ID format"
  | .ok objID =>
    match db.users.find? fun u => u.id == objID with
    | some u => .ok u
    | none => .error "user not found"

/-- UserService.GetUserByEmail. -/
def UserService.GetUserByEmail (db : DB) (email : String) : Except String User :=
  match db.users.find? fun u => u.email == email with
  | some u => .ok u
  | none => .error "user not found"

/-- UserService.GetRoleByName. -/
def UserService.GetRoleByName (db : DB) (name : String) : Except String Role :=
  match db.roles.find? fun r => r.name == name with
  | some r => .ok r
  | none => .error "role not found"

/-- UserService.GetRoleByID. -/
def UserService.GetRoleByID (db : DB) (id : String) : Except String Role :=
  match ObjectIDFromHex id with
  | .error _ => .error "invalid role ID format"
  | .ok objID =>
    match db.roles.find? fun r => r.id == objID with
    | some r => .ok r
    | none => .error "role not found"

/-- UserService.UpdateUserPassword: UpdateByID with a password/updated_at $set;
ModifiedCount is zero exactly when no document matches the id. -/
def UserService.UpdateUserPassword (db : DB) (userID : ObjectID) (hashedPassword : String)
    (now : Nat) : DB × Except String Unit :=
  if db.users.any fun u => u.id == userID then
    ({ db with users := db.users.map fun u =>
        if u.id == userID then { u with password := hashedPassword, updatedAt := now } else u },
     .ok ())
  else (db, .error "user not found or password not changed")

/-- UserService.UpdateUserPasswordAndNeedsChange: sets password and the
needs_password_change flag in one $set. -/
def UserService.UpdateUserPasswordAndNeedsChange (db : DB) (userID : ObjectID)
    (hashedPassword : String) (needsChange : Bool) (now : Nat) : DB × Except String Unit :=
  if db.users.any fun u => u.id == userID then
    ({ db with users := db.users.map fun u =>
        if u.id == userID then
          { u with password := hashedPassword, needsPasswordChange := needsChange, updatedAt := now }
        else u },
     .ok ())
  else (db, .error "user not found or password/needs_password_change not updated")

/-- UserService.GetUserResponseByID: builds the response, defaulting the role
name to Unknown when the role id dangles. -/
def UserService.GetUserResponseByID (db : DB) (id : String) : Except String UserResponse :=
  match UserService.GetUserByID db id with
  | .error e => .error e
  | .ok user =>
    match UserService.GetRoleByID db user.roleID.hex with
    | .error _ =>
      .ok ⟨user.id.hex, user.firstName, user.lastName, user.email, "Unknown",
           user.profilePictureURL, user.isEmailVerified, user.needsPasswordChange,
           user.createdAt, user.updatedAt⟩
    | .ok role =>
      .ok ⟨user.id.hex, user.firstName, user.lastName, user.email, role.name,
           user.profilePictureURL, user.isEmailVerified, user.needsPasswordChange,
           user.createdAt, user.updatedAt⟩

/-- UserService.UpdateUserRole: validates the id, resolves the new role by
name, sets role_id, then re-reads the user to build the response. -/
def UserService.UpdateUserRole (db : DB) (userID : String) (newRoleName : String)
    (now : Nat) : DB × Except String UserResponse :=
  match ObjectIDFromHex userID with
  | .error _ => (db, .error "invalid user ID format")
  | .ok objID =>
    match UserService.GetRoleByName db newRoleName with
    | .error _ => (db, .error "new role not found")
    | .ok newRole =>
      if db.users.any fun u => u.id == objID then
        let db2 : DB := { db with users := db.users.map fun u =>
          if u.id == objID then { u with roleID := newRole.id, updatedAt := now } else u }
        match UserService.GetUserByID db2 userID with
        | .error e => (db2, .error e)
        | .ok updatedUser =>
          match UserService.GetUserResponseByID db2 updatedUser.id.hex with
          | .error e => (db2, .error e)
          | .ok resp => (db2, .ok resp)
      else (db, .error "user not found or role not changed")

/-- TaskService.GetTaskByID. -/
def TaskService.GetTaskByID (db : DB) (id : String) : Except String Task :=
  match ObjectIDFromHex id with
  | .error _ => .error "invalid task ID format"
  | .ok objID =>
    match db.tasks.find? fun t => t.id == objID with
    | some t => .ok t
    | none => .error "task not found"

/-- TaskService.CreateTask: assigns a fresh id and timestamps, inserts the
task. `freshID` stands for primitive.NewObjectID(). -/
def TaskService.CreateTask (db : DB) (task : Task) (freshID : ObjectID) (now : Nat) :
    DB × Except String Task :=
  let t : Task := { task with id := freshID, createdAt := now, updatedAt := now }
  ({ db with tasks := db.tasks ++ [t] }, .ok t)

/-- TaskService.UpdateTask: validates the id, $sets the supplied fields plus
updated_at, then re-reads the task. -/
def TaskService.UpdateTask (db : DB) (id : String) (update : UpdateTaskRequest)
    (now : Nat) : DB × Except String Task :=
  match ObjectIDFromHex id with
  | .error _ => (db, .error "invalid task ID format")
  | .ok objID =>
    if db.tasks.any fun t => t.id == objID then
      let db2 : DB := { db with tasks := db.tasks.map fun t =>
        if t.id == objID then
          { t with title := update.title.getD t.title,
                   description := update.description.getD t.description,
                   status := update.status.getD t.status,
                   updatedAt := now }
        else t }
      match TaskService.GetTaskByID db2 id with
      | .error e => (db2, .error e)
      | .ok t => (db2, .ok t)
    else (db, .error "task not found or no changes made")

/-- The process-wide password-reset registry: token to owning user id. -/
abbrev Registry := List (Token × ObjectID)

/-- Go map assignment on the registry: rebinds the token to the user id. -/
def Registry.insert (reg : Registry) (tok : Token) (uid : ObjectID) : Registry :=
  (reg.filter fun e => !(e.1 == tok)) ++ [(tok, uid)]

/-- Go map lookup on the registry. -/
def Registry.lookup (reg : Registry) (tok : Token) : Option ObjectID :=
  (reg.find? fun e => e.1 == tok).map Prod.snd

/-- Go map delete on the registry (a no-op on a missing key). -/
def Registry.erase (reg : Registry) (tok : Token) : Registry :=
  reg.filter fun e => !(e.1 == tok)

/-- AuthService: holds the session secret and the distinct reset secret. -/
structure AuthService where
  jwtSecret : String
  passwordResetSecret : String
deriving DecidableEq

/-- AuthService.ValidateToken: jwt.Parse against the session secret. -/
def AuthService.ValidateToken (s : AuthService) (tok : Token) (now : Nat) :
    Except String MapClaims :=
  jwtParse tok s.jwtSecret now

/-- AuthService.ForgotPassword: a missing email is deliberately reported as
success; a known email gets a reset token registered against its user id.
The deferred one-hour removal is a separate event, modelled by
`sweepResetToken`. -/
def AuthService.ForgotPassword (s : AuthService) (db : DB) (reg : Registry)
    (email : String) (now : Nat) : Registry × Except String Unit :=
  match UserService.GetUserByEmail db email with
  | .error _ => (reg, .ok ())
  | .ok user =>
    let resetToken := GeneratePasswordResetToken user.id s.passwordResetSecret now
    (Registry.insert reg resetToken user.id, .ok ())

/-- The deferred goroutine that removes a reset token from the registry one
hour after issuance, whether or not it was redeemed. -/
def sweepResetToken (reg : Registry) (tok : Token) : Registry :=
  Registry.erase reg tok

/-- AuthService.ResetPassword: looks the token up in the registry, deletes it,
hashes the new password and writes it to the owning user. -/
def AuthService.ResetPassword (db : DB) (reg : Registry) (tok : Token)
    (newPassword : String) (now : Nat) : DB × Registry × Except String Unit :=
  match Registry.lookup reg tok with
  | none => (db, reg, .error "invalid or expired password reset token")
  | some userID =>
    let reg2 := Registry.erase reg tok
    let hashed := HashPassword newPassword
    match UserService.UpdateUserPassword db userID hashed now with
    | (db2, .error _) => (db2, reg2, .error "failed to update password in database")
    | (db2, .ok _) => (db2, reg2, .ok ())

/-- AuthService.ChangeTemporaryPassword: requires the user to exist, the
needs_password_change flag to be set and the old password to match; then
writes the new hash and clears the flag. -/
def AuthService.ChangeTemporaryPassword (db : DB) (userID : ObjectID)
    (oldPassword newPassword : String) (now : Nat) : DB × Except String Unit :=
  match UserService.GetUserByID db userID.hex with
  | .error _ => (db, .error "user not found")
  | .ok user =>
    if !user.needsPasswordChange then (db, .error "password change not required for this account")
    else if !(CheckPasswordHash oldPassword user.password) then (db, .error "invalid old password")
    else
      let hashed := HashPassword newPassword
      match UserService.UpdateUserPasswordAndNeedsChange db userID hashed false now with
      | (db2, .error _) => (db2, .error "failed to update password")
      | (db2, .ok _) => (db2, .ok ())

/-- Outcome of a handler: an HTTP status code with either a body value
(RespondWithJSON) or an error message (RespondWithError). -/
inductive HandlerResult (α : Type) where
  | success : Nat → α → HandlerResult α
  | failure : Nat → String → HandlerResult α
deriving DecidableEq

/-- Is the handler outcome a success response? -/
def HandlerResult.isSuccess {α : Type} : HandlerResult α → Bool
  | .success _ _ => true
  | .failure _ _ => false

/-- validator.Struct on UpdateUserRoleRequest: role_name is required. -/
def validUpdateUserRoleRequest (req : UpdateUserRoleRequest) : Bool :=
  !(req.roleName == "")

/-- validator.Struct on CreateTaskRequest: title required with min length 5,
status empty or one of the three task states. -/
def validCreateTaskRequest (req : CreateTaskRequest) : Bool :=
  decide (5 ≤ req.title.length) &&
  (req.status == "" || req.status == "todo" || req.status == "in_progress" || req.status == "done")

/-- validator.Struct on UpdateTaskRequest: when present, title has min length
5 and status is one of the three task states. -/
def validUpdateTaskRequest (req : UpdateTaskRequest) : Bool :=
  (match req.title with
   | some t => decide (5 ≤ t.length)
   | none => true) &&
  (match req.status with
   | some st => st == "todo" || st == "in_progress" || st == "done"
   | none => true)

/-- UserHandler.UpdateUserRole: after validation it loads the target user and
their current role, applies the two admin special-case guards, then delegates
to UserService.UpdateUserRole.  The authenticated context comes from the
middleware; the route-level user:update_role permission check already ran. -/
def UserHandler.UpdateUserRole (db : DB) (authContext : AuthContext)
    (targetUserID : String) (req : UpdateUserRoleRequest) (now : Nat) :
    DB × HandlerResult UserResponse :=
  if !validUpdateUserRoleRequest req then (db, .failure 400 "validation failed")
  else
    match UserService.GetUserByID db targetUserID with
    | .error _ => (db, .failure 404 "Target user not found")
    | .ok targetUser =>
      match UserService.GetRoleByID db targetUser.roleID.hex with
      | .error _ => (db, .failure 500 "Could not determine target user's current role")
      | .ok targetRole =>
        if targetRole.name == "Admin" && authContext.roleName == "Admin"
            && !(targetUserID == authContext.userID.hex) then
          (db, .failure 403 "You cannot change the role of another Admin.")
        else if req.roleName == "Admin" && authContext.roleName == "Admin"
            && targetUserID == authContext.userID.hex then
          (db, .failure 403 "You cannot change your own role from Admin.")
        else
          match UserService.UpdateUserRole db targetUserID req.roleName now with
          | (db2, .error e) =>
            if e == "user not found or role not changed" || e == "new role not found"
                || e == "invalid user ID format" then
              (db2, .failure 400 e)
            else (db2, .failure 500 "Failed to update user role")
          | (db2, .ok resp) => (db2, .success 200 resp)

/-- TaskHandler.CreateTask: after validation, defaults the status to todo and
builds the task with UserID taken from the authenticated context, then inserts
it through TaskService.CreateTask. -/
def TaskHandler.CreateTask (db : DB) (authContext : AuthContext)
    (req : CreateTaskRequest) (freshID : ObjectID) (now : Nat) :
    DB × HandlerResult Task :=
  if !validCreateTaskRequest req then (db, .failure 400 "validation failed")
  else
    let status : TaskStatus := if req.status == "" then StatusTodo else req.status
    let task : Task :=
      { id := NilObjectID, title := req.title, description := req.description,
        status := status, userID := authContext.userID, createdAt := 0, updatedAt := 0 }
    match TaskService.CreateTask db task freshID now with
    | (db2, .ok created) => (db2, .success 201 created)
    | (db2, .error _) => (db2, .failure 500 "Failed to create task")

/-- TaskHandler.UpdateTask: after validation, loads the task, applies the
own-or-all authorization check (task:update_all or ownership), then delegates
to TaskService.UpdateTask. -/
def TaskHandler.UpdateTask (db : DB) (authContext : AuthContext)
    (taskID : String) (req : UpdateTaskRequest) (now : Nat) :
    DB × HandlerResult Task :=
  if !validUpdateTaskRequest req then (db, .failure 400 "validation failed")
  else
    match TaskService.GetTaskByID db taskID with
    | .error e =>
      if e == "task not found" then (db, .failure 404 e)
      else (db, .failure 500 "Failed to retrieve task for update")
    | .ok task =>
      if !(AuthContext.HasPermission authContext "task:update_all")
          && !(task.userID == authContext.userID) then
        (db, .failure 403 "You do not have permission to update this task")
      else
        match TaskService.UpdateTask db taskID req now with
        | (db2, .error e) =>
          if e == "task not found or no changes made" then (db2, .failure 404 e)
          else (db2, .failure 500 "Failed to update task")
        | (db2, .ok t) => (db2, .success 200 t)

/-- A concrete Admin role document for the self-demotion scenario, carrying
the full compiled-in Admin permission set. -/
def c1AdminRole : Role :=
  ⟨⟨"aaaaaaaaaaaaaaaaaaaaaaaa"⟩, "Admin",
   (DefaultRoles.getD 0 ⟨NilObjectID, "", []⟩).permissions⟩

/-- A concrete User role document for the self-demotion scenario. -/
def c1UserRole : Role :=
  ⟨⟨"bbbbbbbbbbbbbbbbbbbbbbbb"⟩, "User",
   (DefaultRoles.getD 2 ⟨NilObjectID, "", []⟩).permissions⟩

/-- A concrete Admin user for the self-demotion scenario. -/
def c1AdminUser : User :=
  ⟨⟨"cccccccccccccccccccccccc"⟩, "Ada", "Admin", "ada@example.com", HashPassword "pw",
   ⟨"aaaaaaaaaaaaaaaaaaaaaaaa"⟩, "", true, false, 0, 0⟩

/-- Store for the self-demotion scenario: one Admin user, two roles. -/
def c1db : DB := ⟨[c1AdminUser], [c1AdminRole, c1UserRole], []⟩

/-- Authorization context of that Admin, holding the full Admin permission
set (in particular user:update_role). -/
def c1ctx : AuthContext :=
  ⟨⟨"cccccccccccccccccccccccc"⟩, ⟨"aaaaaaaaaaaaaaaaaaaaaaaa"⟩, "Admin",
   c1AdminRole.permissions, true, false⟩

/-- C1: the self-demotion guard misfires.  An Admin whose target is their own
user id and whose requested role is "User" (not "Admin") is NOT rejected: the
handler returns a success response, the user's role id is changed to the User
role, and the 403 self-demotion rejection is not produced — the guard in
user_handler.go line 150 tests req.RoleName == "Admin" instead of != "Admin",
contradicting its own comment and error message. -/
theorem selfDemotion_not_rejected :
    c1ctx.HasPermission "user:update_role" = true ∧
    (UserHandler.UpdateUserRole c1db c1ctx "cccccccccccccccccccccccc" ⟨"User"⟩ 0).2.isSuccess
      = true ∧
    (UserHandler.UpdateUserRole c1db c1ctx "cccccccccccccccccccccccc" ⟨"User"⟩ 0).1.users.map
      User.roleID = [⟨"bbbbbbbbbbbbbbbbbbbbbbbb"⟩] ∧
    (UserHandler.UpdateUserRole c1db c1ctx "cccccccccccccccccccccccc" ⟨"User"⟩ 0).2
      ≠ HandlerResult.failure 403 "You cannot change your own role from Admin." := by
  decide

/-- C4: session-token round trip.  Validating the token produced by
GenerateToken(u, e, r, s) against the same secret s, before its 24-hour
expiry, succeeds and yields claims whose user_id is u.Hex and whose role_id
is r.Hex. -/
theorem sessionToken_roundtrip (u : ObjectID) (e : String) (r : ObjectID)
    (secret resetSecret : String) (tIssue tCheck : Nat)
    (h : tCheck < tIssue + 24 * 3600) :
    (AuthService.ValidateToken ⟨secret, resetSecret⟩
        (GenerateToken u e r secret tIssue) tCheck).toOption.map MapClaims.user_id
      = some (some u.hex) ∧
    (AuthService.ValidateToken ⟨secret, resetSecret⟩
        (GenerateToken u e r secret tIssue) tCheck).toOption.map MapClaims.role_id
      = some (some r.hex) := by
  simp [AuthService.ValidateToken, jwtParse, GenerateToken, Alg.isHMAC, hmacSign, h,
        Except.toOption]

/-- Witness for C4 at a concrete identity triple and secret. -/
theorem sessionToken_roundtrip_witness :
    (AuthService.ValidateToken ⟨"session-secret", "reset-secret"⟩
        (GenerateToken ⟨"u"⟩ "ada@example.com" ⟨"r"⟩ "session-secret" 100) 200).toOption.map
        MapClaims.user_id = some (some (ObjectID.hex ⟨"u"⟩)) ∧
    (AuthService.ValidateToken ⟨"session-secret", "reset-secret"⟩
        (GenerateToken ⟨"u"⟩ "ada@example.com" ⟨"r"⟩ "session-secret" 100) 200).toOption.map
        MapClaims.role_id = some (some (ObjectID.hex ⟨"r"⟩)) :=
  sessionToken_roundtrip ⟨"u"⟩ "ada@example.com" ⟨"r"⟩ "session-secret" "reset-secret"
    100 200 (by decide)

/-- C5: a token issued by any of the three issuers under secret s1 never
verifies against a different secret s2: jwt parsing reports an invalid
signature. -/
theorem crossSecret_verification_fails (u : ObjectID) (e : String) (r : ObjectID)
    (uid : String) (s1 s2 : String) (t1 t2 t3 now1 now2 now3 : Nat) (h : s1 ≠ s2) :
    jwtParse (GenerateToken u e r s1 t1) s2 now1 = .error "signature is invalid" ∧
    jwtParse (GeneratePasswordResetToken u s1 t2) s2 now2 = .error "signature is invalid" ∧
    jwtParse (GenerateVerificationToken uid s1 t3) s2 now3 = .error "signature is invalid" := by
  refine ⟨?_, ?_, ?_⟩ <;>
    simp [jwtParse, GenerateToken, GeneratePasswordResetToken, GenerateVerificationToken,
          Alg.isHMAC, hmacSign, Sig.mk.injEq, h]

/-- Witness for C5 with two distinct concrete secrets. -/
theorem crossSecret_verification_fails_witness :
    jwtParse (GenerateToken ⟨"u"⟩ "e" ⟨"r"⟩ "secret-one" 0) "secret-two" 1
      = .error "signature is invalid" ∧
    jwtParse (GeneratePasswordResetToken ⟨"u"⟩ "secret-one" 0) "secret-two" 1
      = .error "signature is invalid" ∧
    jwtParse (GenerateVerificationToken "u" "secret-one" 0) "secret-two" 1
      = .error "signature is invalid" :=
  crossSecret_verification_fails ⟨"u"⟩ "e" ⟨"r"⟩ "u" "secret-one" "secret-two"
    0 0 0 1 1 1 (by decide)

/-- C7: ForgotPassword reports success to the caller whether or not a user
with the supplied email exists — for every store, registry, email and time it
returns the ok outcome, so the success path cannot distinguish known from
unknown emails. -/
theorem forgotPassword_uniform_success (s : AuthService) (db : DB) (reg : Registry)
    (email : String) (now : Nat) :
    (AuthService.ForgotPassword s db reg email now).2 = .ok () := by
  rcases h : UserService.GetUserByEmail db email with e | u <;>
    simp [AuthService.ForgotPassword, h]

/-- C3: peer-admin immutability.  Whenever the actor's role is Admin, the
target is a different user (their id differs from the actor's) and the target
currently holds the Admin role, UpdateUserRole answers 403 and leaves the
store untouched, regardless of the requested role or the actor's
permissions. -/
theorem updateUserRole_denies_peer_admin
    (db : DB) (ctx : AuthContext) (targetUserID : String) (req : UpdateUserRoleRequest)
    (now : Nat) (targetUser : User) (targetRole : Role)
    (hreq : req.roleName ≠ "")
    (hu : UserService.GetUserByID db targetUserID = .ok targetUser)
    (hr : UserService.GetRoleByID db targetUser.roleID.hex = .ok targetRole)
    (hname : targetRole.name = "Admin")
    (hctx : ctx.roleName = "Admin")
    (hne : targetUserID ≠ ctx.userID.hex) :
    UserHandler.UpdateUserRole db ctx targetUserID req now =
      (db, .failure 403 "You cannot change the role of another Admin.") := by
  simp [UserHandler.UpdateUserRole, validUpdateUserRoleRequest, hu, hr, hname, hctx, hne, hreq]

/-- A second Admin user, target of the peer-admin witness scenario. -/
def c3AdminB : User :=
  ⟨⟨"dddddddddddddddddddddddd"⟩, "Bob", "Admin", "bob@example.com", HashPassword "pw",
   ⟨"aaaaaaaaaaaaaaaaaaaaaaaa"⟩, "", true, false, 0, 0⟩

/-- Store for the peer-admin witness scenario: two Admin users. -/
def c3db : DB := ⟨[c1AdminUser, c3AdminB], [c1AdminRole, c1UserRole], []⟩

/-- Witness for C3: Admin A (holding user:update_role) targeting Admin B is
denied with 403 and the store is unchanged. -/
theorem updateUserRole_denies_peer_admin_witness :
    UserHandler.UpdateUserRole c3db c1ctx "dddddddddddddddddddddddd" ⟨"User"⟩ 0 =
      (c3db, .failure 403 "You cannot change the role of another Admin.") :=
  updateUserRole_denies_peer_admin c3db c1ctx "dddddddddddddddddddddddd" ⟨"User"⟩ 0
    c3AdminB c1AdminRole (by decide) (by rfl) (by rfl) (by rfl) (by rfl) (by decide)

/-- C6: own-or-all on task update.  With a valid request and an existing
task, UpdateTask returns the 403 denial (leaving the store untouched) exactly
when the actor neither holds task:update_all nor owns the task; and when the
actor does, the handler proceeds to the service-level update. -/
theorem updateTask_own_or_all
    (db : DB) (ctx : AuthContext) (taskID : String) (req : UpdateTaskRequest)
    (now : Nat) (task : Task)
    (hreq : validUpdateTaskRequest req = true)
    (ht : TaskService.GetTaskByID db taskID = .ok task) :
    (TaskHandler.UpdateTask db ctx taskID req now
        = (db, .failure 403 "You do not have permission to update this task")
      ↔ ¬ (AuthContext.HasPermission ctx "task:update_all" = true ∨ task.userID = ctx.userID)) ∧
    ((AuthContext.HasPermission ctx "task:update_all" = true ∨ task.userID = ctx.userID) →
      TaskHandler.UpdateTask db ctx taskID req now =
        (match TaskService.UpdateTask db taskID req now with
         | (db2, .error e) =>
           if e == "task not found or no changes made" then (db2, .failure 404 e)
           else (db2, .failure 500 "Failed to update task")
         | (db2, .ok t) => (db2, .success 200 t))) := by
  by_cases hAuth : AuthContext.HasPermission ctx "task:update_all" = true ∨ task.userID = ctx.userID
  · have hc : (!(AuthContext.HasPermission ctx "task:update_all")
        && !(task.userID == ctx.userID)) = false := by
      rcases hAuth with h1 | h1 <;> simp [h1]
    constructor
    · constructor
      · intro heq
        exfalso
        rcases hsv : TaskService.UpdateTask db taskID req now with ⟨db2, r⟩
        rcases r with e | t
        · by_cases he : e = "task not found or no changes made" <;>
            simp [TaskHandler.UpdateTask, hreq, ht, hc, hsv, he] at heq
        · simp [TaskHandler.UpdateTask, hreq, ht, hc, hsv] at heq
      · intro hno; exact absurd hAuth hno
    · intro _
      simp [TaskHandler.UpdateTask, hreq, ht, hc]
  · have hno := hAuth
    push_neg at hno
    have hc : (!(AuthContext.HasPermission ctx "task:update_all")
        && !(task.userID == ctx.userID)) = true := by
      simp [hno.1, hno.2]
    constructor
    · constructor
      · intro _; exact hAuth
      · intro _; simp [TaskHandler.UpdateTask, hreq, ht, hc]
    · intro hyes; exact absurd hyes hAuth

/-- A task owned by the c1 Admin user, for the own-or-all witness. -/
def c6Task : Task :=
  ⟨⟨"ffffffffffffffffffffffff"⟩, "Ship the release", "", "todo",
   ⟨"cccccccccccccccccccccccc"⟩, 0, 0⟩

/-- Store for the own-or-all witness: one task. -/
def c6db : DB := ⟨[c1AdminUser], [c1AdminRole, c1UserRole], [c6Task]⟩

/-- Witness for C6 at a concrete store, actor and task. -/
theorem updateTask_own_or_all_witness :
    (TaskHandler.UpdateTask c6db c1ctx "ffffffffffffffffffffffff" ⟨none, none, none⟩ 5
        = (c6db, .failure 403 "You do not have permission to update this task")
      ↔ ¬ (AuthContext.HasPermission c1ctx "task:update_all" = true
            ∨ c6Task.userID = c1ctx.userID)) ∧
    ((AuthContext.HasPermission c1ctx "task:update_all" = true
        ∨ c6Task.userID = c1ctx.userID) →
      TaskHandler.UpdateTask c6db c1ctx "ffffffffffffffffffffffff" ⟨none, none, none⟩ 5 =
        (match TaskService.UpdateTask c6db "ffffffffffffffffffffffff" ⟨none, none, none⟩ 5 with
         | (db2, .error e) =>
           if e == "task not found or no changes made" then (db2, .failure 404 e)
           else (db2, .failure 500 "Failed to update task")
         | (db2, .ok t) => (db2, .success 200 t))) :=
  updateTask_own_or_all c6db c1ctx "ffffffffffffffffffffffff" ⟨none, none, none⟩ 5
    c6Task (by decide) (by rfl)

/-- C10: every task created through CreateTask is owned by the authenticated
requester: whenever the handler answers with a success response carrying task
t, t's UserID is the context's user id and the store gained exactly t. -/
theorem createTask_owner_is_requester
    (db : DB) (ctx : AuthContext) (req : CreateTaskRequest) (freshID : ObjectID)
    (now code : Nat) (t : Task) (db2 : DB)
    (h : TaskHandler.CreateTask db ctx req freshID now = (db2, .success code t)) :
    t.userID = ctx.userID ∧ db2.tasks = db.tasks ++ [t] := by
  by_cases hv : validCreateTaskRequest req = true
  · simp [TaskHandler.CreateTask, hv, TaskService.CreateTask] at h
    obtain ⟨h1, h2, h3⟩ := h
    subst h1
    exact ⟨by rw [← h3], by rw [← h3]⟩
  · simp [TaskHandler.CreateTask, hv] at h

/-- Updating list elements in place through a predicate-preserving function
commutes with find?: the first match of the updated list is the update of the
first match. -/
theorem find?_map_pointwise {α : Type} (l : List α) (p : α → Bool) (f : α → α)
    (hpres : ∀ a, p (f a) = p a) :
    (l.map fun a => if p a then f a else a).find? p = (l.find? p).map f := by
  induction l with
  | nil => rfl
  | cons a as ih =>
    simp only [List.map_cons]
    by_cases h : p a = true
    · rw [if_pos h, List.find?_cons_of_pos _ (by rw [hpres]; exact h),
          List.find?_cons_of_pos _ h]
      rfl
    · rw [if_neg h, List.find?_cons_of_neg _ h, List.find?_cons_of_neg _ h]
      exact ih

/-- Looking up a token right after rebinding it yields the bound user id. -/
theorem Registry.lookup_insert (reg : Registry) (tok : Token) (uid : ObjectID) :
    Registry.lookup (Registry.insert reg tok uid) tok = some uid := by
  unfold Registry.lookup Registry.insert
  have hnone : (reg.filter fun e => !(e.1 == tok)).find? (fun e => e.1 == tok) = none := by
    rw [List.find?_eq_none]
    intro x hx
    have hmem := List.of_mem_filter hx
    simp only [Bool.not_eq_true'] at hmem
    simp [hmem]
  rw [List.find?_append, hnone]
  simp [List.find?]

/-- Looking up a token right after deleting it finds nothing. -/
theorem Registry.lookup_erase (reg : Registry) (tok : Token) :
    Registry.lookup (Registry.erase reg tok) tok = none := by
  unfold Registry.lookup Registry.erase
  have hnone : (reg.filter fun e => !(e.1 == tok)).find? (fun e => e.1 == tok) = none := by
    rw [List.find?_eq_none]
    intro x hx
    have hmem := List.of_mem_filter hx
    simp only [Bool.not_eq_true'] at hmem
    simp [hmem]
  rw [hnone]
  rfl

/-- A user returned by GetUserByEmail is a member of the users collection. -/
theorem getUserByEmail_mem (db : DB) (email : String) (u : User)
    (h : UserService.GetUserByEmail db email = .ok u) : u ∈ db.users := by
  unfold UserService.GetUserByEmail at h
  rcases hf : db.users.find? (fun v => v.email == email) with _ | v
  · rw [hf] at h; cases h
  · rw [hf] at h
    injection h with h2
    rw [h2] at hf
    exact List.mem_of_find?_eq_some hf

/-- A successful ObjectIDFromHex returns exactly the wrapped input string. -/
theorem ObjectIDFromHex_ok (s : String) (o : ObjectID)
    (h : ObjectIDFromHex s = .ok o) : o = ⟨s⟩ := by
  unfold ObjectIDFromHex at h
  by_cases hc : (s.length = 24 && s.toList.all isHexChar) = true
  · rw [if_pos hc] at h
    injection h with h2
    exact h2.symm
  · rw [if_neg hc] at h
    cases h

/-- A successful GetUserByID pins down the find? over the users collection. -/
theorem getUserByID_ok_find (db : DB) (idStr : String) (u : User)
    (h : UserService.GetUserByID db idStr = .ok u) :
    db.users.find? (fun v => v.id == ObjectID.mk idStr) = some u := by
  unfold UserService.GetUserByID at h
  rcases ho : ObjectIDFromHex idStr with e | o
  · simp [ho] at h
  · have heq := ObjectIDFromHex_ok idStr o ho
    subst heq
    simp only [ho] at h
    rcases hf : db.users.find? (fun v => v.id == ObjectID.mk idStr) with _ | w
    · simp [hf] at h
    · simp [hf] at h
      rw [← h]
      exact hf

/-- C2's property bundle for one issue-redeem-redeem run: ForgotPassword
succeeds and registers the token against the owning user; the first
ResetPassword with that token succeeds, stores the hash of the new password
on that user and removes the token; and any ResetPassword on a registry
without the token (in particular every later one in this run) answers the
invalid-or-expired error and changes nothing. -/
def ResetTokenRedeemedOnce (s : AuthService) (db : DB) (reg : Registry)
    (email : String) (u : User) (tIssue tRedeem : Nat) (p q : String) : Prop :=
  let tok := GeneratePasswordResetToken u.id s.passwordResetSecret tIssue
  let reg1 := (AuthService.ForgotPassword s db reg email tIssue).1
  let first := AuthService.ResetPassword db reg1 tok p tRedeem
  (AuthService.ForgotPassword s db reg email tIssue).2 = .ok () ∧
  Registry.lookup reg1 tok = some u.id ∧
  first.2.2 = .ok () ∧
  (first.1.users.find? fun v => v.id == u.id).map User.password
    = some (HashPassword p) ∧
  Registry.lookup first.2.1 tok = none ∧
  ∀ db3 reg3 tLater, Registry.lookup reg3 tok = none →
    AuthService.ResetPassword db3 reg3 tok q tLater =
      (db3, reg3, .error "invalid or expired password reset token")

/-- C2: a reset token placed in the registry by ForgotPassword redeems at
most once in a sequential run: the first ResetPassword succeeds and updates
the owning user's password, and once the token is gone from the registry
every later ResetPassword with it fails with the invalid-or-expired error
and leaves both store and registry unchanged. -/
theorem resetToken_at_most_once (s : AuthService) (db : DB) (reg : Registry)
    (email : String) (u : User) (tIssue tRedeem : Nat) (p q : String)
    (hu : UserService.GetUserByEmail db email = .ok u) :
    ResetTokenRedeemedOnce s db reg email u tIssue tRedeem p q := by
  have hmem : u ∈ db.users := getUserByEmail_mem db email u hu
  have hany : db.users.any (fun v => v.id == u.id) = true := by
    rw [List.any_eq_true]
    exact ⟨u, hmem, by simp⟩
  have hfound : ∃ w, db.users.find? (fun v => v.id == u.id) = some w := by
    rcases hf : db.users.find? (fun v => v.id == u.id) with _ | w
    · exfalso
      rw [List.find?_eq_none] at hf
      have hne := hf u hmem
      simp at hne
    · exact ⟨w, hf⟩
  rcases hfound with ⟨w, hw⟩
  have hupd : UserService.UpdateUserPassword db u.id (HashPassword p) tRedeem
      = ({ db with users := db.users.map fun v =>
            if v.id == u.id then { v with password := HashPassword p, updatedAt := tRedeem }
            else v },
         .ok ()) := by
    unfold UserService.UpdateUserPassword
    rw [if_pos hany]
  have hreg1 : (AuthService.ForgotPassword s db reg email tIssue).1
      = Registry.insert reg (GeneratePasswordResetToken u.id s.passwordResetSecret tIssue) u.id := by
    simp [AuthService.ForgotPassword, hu]
  have hfirst : AuthService.ResetPassword db
      (Registry.insert reg (GeneratePasswordResetToken u.id s.passwordResetSecret tIssue) u.id)
      (GeneratePasswordResetToken u.id s.passwordResetSecret tIssue) p tRedeem
      = ({ db with users := db.users.map fun v =>
            if v.id == u.id then { v with password := HashPassword p, updatedAt := tRedeem }
            else v },
         Registry.erase
           (Registry.insert reg (GeneratePasswordResetToken u.id s.passwordResetSecret tIssue) u.id)
           (GeneratePasswordResetToken u.id s.passwordResetSecret tIssue),
         .ok ()) := by
    simp [AuthService.ResetPassword, Registry.lookup_insert, hupd]
  simp only [ResetTokenRedeemedOnce]
  refine ⟨by simp [AuthService.ForgotPassword, hu], ?_, ?_, ?_, ?_, ?_⟩
  · rw [hreg1]
    exact Registry.lookup_insert reg _ u.id
  · rw [hreg1, hfirst]
  · rw [hreg1, hfirst]
    show ((db.users.map fun v =>
        if v.id == u.id then { v with password := HashPassword p, updatedAt := tRedeem }
        else v).find? fun v => v.id == u.id).map User.password = some (HashPassword p)
    rw [find?_map_pointwise db.users (fun v => v.id == u.id)
        (fun v => { v with password := HashPassword p, updatedAt := tRedeem })
        (fun a => rfl), hw]
    rfl
  · rw [hreg1, hfirst]
    exact Registry.lookup_erase _ _
  · intro db3 reg3 tLater hnone
    simp [AuthService.ResetPassword, hnone]

/-- User owning the reset token in the C2 witness scenario. -/
def c2User : User :=
  ⟨⟨"123456789012345678901234"⟩, "Eve", "User", "eve@example.com", HashPassword "old",
   ⟨"bbbbbbbbbbbbbbbbbbbbbbbb"⟩, "", true, false, 0, 0⟩

/-- Store for the C2 witness scenario. -/
def c2db : DB := ⟨[c2User], [c1UserRole], []⟩

/-- Witness for C2 on a concrete store, secrets and timestamps. -/
theorem resetToken_at_most_once_witness :
    ResetTokenRedeemedOnce ⟨"session-secret", "reset-secret"⟩ c2db []
      "eve@example.com" c2User 10 20 "brand-new" "sneaky" :=
  resetToken_at_most_once ⟨"session-secret", "reset-secret"⟩ c2db []
    "eve@example.com" c2User 10 20 "brand-new" "sneaky" (by rfl)

/-- C8's contract for ChangeTemporaryPassword: it succeeds exactly when the
user exists, the needs_password_change flag is set and the old password
matches the stored hash; on success the user's stored password becomes the
hash of the new password and the flag is cleared; on any failure the store is
untouched. -/
def ChangeTemporaryPasswordContract (db : DB) (userID : ObjectID)
    (oldPassword newPassword : String) (now : Nat) : Prop :=
  ((AuthService.ChangeTemporaryPassword db userID oldPassword newPassword now).2 = .ok ()
    ↔ ∃ u, UserService.GetUserByID db userID.hex = .ok u ∧
        u.needsPasswordChange = true ∧ CheckPasswordHash oldPassword u.password = true) ∧
  ((AuthService.ChangeTemporaryPassword db userID oldPassword newPassword now).2 = .ok () →
    ((AuthService.ChangeTemporaryPassword db userID oldPassword newPassword now).1.users.find?
        fun v => v.id == userID).map (fun v => (v.password, v.needsPasswordChange))
      = some (HashPassword newPassword, false)) ∧
  ((AuthService.ChangeTemporaryPassword db userID oldPassword newPassword now).2 ≠ .ok () →
    (AuthService.ChangeTemporaryPassword db userID oldPassword newPassword now).1 = db)

/-- C8: for every store, user id, password pair and time, the
ChangeTemporaryPassword contract holds. -/
theorem changeTemporaryPassword_contract (db : DB) (userID : ObjectID)
    (oldPassword newPassword : String) (now : Nat) :
    ChangeTemporaryPasswordContract db userID oldPassword newPassword now := by
  unfold ChangeTemporaryPasswordContract
  rcases hu : UserService.GetUserByID db userID.hex with e | u
  · refine ⟨?_, ?_, ?_⟩ <;> simp [AuthService.ChangeTemporaryPassword, hu]
  · by_cases hflag : u.needsPasswordChange = true
    · by_cases hchk : CheckPasswordHash oldPassword u.password = true
      · have hfind : db.users.find? (fun v => v.id == userID) = some u := by
          have h0 := getUserByID_ok_find db userID.hex u hu
          exact h0
        have hany : db.users.any (fun v => v.id == userID) = true := by
          rw [List.any_eq_true]
          exact ⟨u, List.mem_of_find?_eq_some hfind, by
            have := List.find?_some hfind
            exact this⟩
        have hupd : UserService.UpdateUserPasswordAndNeedsChange db userID
            (HashPassword newPassword) false now
            = ({ db with users := db.users.map fun v =>
                  if v.id == userID then
                    { v with password := HashPassword newPassword,
                             needsPasswordChange := false, updatedAt := now }
                  else v },
               .ok ()) := by
          unfold UserService.UpdateUserPasswordAndNeedsChange
          rw [if_pos hany]
        have hres : AuthService.ChangeTemporaryPassword db userID oldPassword newPassword now
            = ({ db with users := db.users.map fun v =>
                  if v.id == userID then
                    { v with password := HashPassword newPassword,
                             needsPasswordChange := false, updatedAt := now }
                  else v },
               .ok ()) := by
          simp [AuthService.ChangeTemporaryPassword, hu, hflag, hchk, hupd]
        refine ⟨?_, ?_, ?_⟩
        · constructor
          · intro _
            exact ⟨u, rfl, hflag, hchk⟩
          · intro _
            rw [hres]
        · intro _
          rw [hres]
          show ((db.users.map fun v =>
              if v.id == userID then
                { v with password := HashPassword newPassword,
                         needsPasswordChange := false, updatedAt := now }
              else v).find? fun v => v.id == userID).map
                (fun v => (v.password, v.needsPasswordChange))
            = some (HashPassword newPassword, false)
          rw [find?_map_pointwise db.users (fun v => v.id == userID)
              (fun v => { v with password := HashPassword newPassword,
                                 needsPasswordChange := false, updatedAt := now })
              (fun a => rfl), hfind]
          rfl
        · intro hne
          exact absurd (by rw [hres]) hne
      · refine ⟨?_, ?_, ?_⟩
        · constructor
          · intro habs
            simp [AuthService.ChangeTemporaryPassword, hu, hflag, hchk] at habs
          · rintro ⟨u2, hu2, hflag2, hchk2⟩
            injection hu2 with h2
            subst h2
            exact absurd hchk2 hchk
        · intro habs
          simp [AuthService.ChangeTemporaryPassword, hu, hflag, hchk] at habs
        · intro _
          simp [AuthService.ChangeTemporaryPassword, hu, hflag, hchk]
    · refine ⟨?_, ?_, ?_⟩
      · constructor
        · intro habs
          simp [AuthService.ChangeTemporaryPassword, hu, hflag] at habs
        · rintro ⟨u2, hu2, hflag2, hchk2⟩
          injection hu2 with h2
          subst h2
          exact absurd hflag2 hflag
      · intro habs
        simp [AuthService.ChangeTemporaryPassword, hu, hflag] at habs
      · intro _
        simp [AuthService.ChangeTemporaryPassword, hu, hflag]

/-- User holding a temporary password in the C8 witness scenario. -/
def c8User : User :=
  ⟨⟨"abcdefabcdefabcdefabcdef"⟩, "Tim", "Temp", "tim@example.com", HashPassword "temp-pw",
   ⟨"aaaaaaaaaaaaaaaaaaaaaaaa"⟩, "", false, true, 0, 0⟩

/-- Store for the C8 witness scenario. -/
def c8db : DB := ⟨[c8User], [c1AdminRole], []⟩

/-- Witness for C8 at a concrete store and user. -/
theorem changeTemporaryPassword_contract_witness :
    ChangeTemporaryPasswordContract c8db ⟨"abcdefabcdefabcdefabcdef"⟩ "temp-pw" "fresh-pw" 9 :=
  changeTemporaryPassword_contract c8db ⟨"abcdefabcdefabcdefabcdef"⟩ "temp-pw" "fresh-pw" 9

/-- Permission lookup over the compiled-in role table: the permissions of the
entry with the given name, and the empty list when there is none. -/
def defaultPermissionsFor (name : String) : List Permission :=
  match DefaultRoles.find? fun r => r.name == name with
  | some r => r.permissions
  | none => []

/-- Modelled from the spec: the canonical Admin permission set of section 4.1. -/
def specCanonicalAdmin : List String :=
  ["task:create", "task:read_all", "task:update_all", "task:delete_all",
   "user:read_all", "user:update_role", "user:update_profile", "user:verify_email",
   "user:create_admin", "dashboard:read_metrics"]

/-- Modelled from the spec: the canonical Manager permission set of section 4.1. -/
def specCanonicalManager : List String :=
  ["task:create", "task:read_all", "task:update_all", "task:delete_all",
   "user:update_profile"]

/-- Modelled from the spec: the canonical User permission set of section 4.1. -/
def specCanonicalUser : List String :=
  ["task:create", "task:read_own", "task:update_own", "task:delete_own",
   "user:update_profile"]

/-- C9: the compiled-in role table gives Admin, Manager and User exactly the
canonical permission sets (as sets — order irrelevant), and for any role name
outside these three the table yields no permissions, so every HasPermission
test on a context carrying them fails closed. -/
theorem defaultRoles_canonical :
    ((defaultPermissionsFor "Admin").map Permission.action).toFinset
      = specCanonicalAdmin.toFinset ∧
    ((defaultPermissionsFor "Manager").map Permission.action).toFinset
      = specCanonicalManager.toFinset ∧
    ((defaultPermissionsFor "User").map Permission.action).toFinset
      = specCanonicalUser.toFinset ∧
    ∀ name, name ∉ (["Admin", "Manager", "User"] : List String) →
      ∀ ctx : AuthContext, ctx.permissions = defaultPermissionsFor name →
        ∀ perm, AuthContext.HasPermission ctx perm = false := by
  refine ⟨by decide, by decide, by decide, ?_⟩
  intro name hname ctx hctx perm
  simp only [List.mem_cons, List.not_mem_nil, or_false, not_or] at hname
  obtain ⟨h1, h2, h3⟩ := hname
  have hfind : DefaultRoles.find? (fun r => r.name == name) = none := by
    rw [List.find?_eq_none]
    intro r hr
    simp only [DefaultRoles, List.mem_cons, List.not_mem_nil, or_false] at hr
    rcases hr with hr | hr | hr <;> subst hr <;> simp [Ne.symm h1, Ne.symm h2, Ne.symm h3]
  have hperm : defaultPermissionsFor name = [] := by
    simp [defaultPermissionsFor, hfind]
  simp [AuthContext.HasPermission, hctx, hperm]

/-- Witness for C9: a context carrying the table's permissions for an unknown
role name fails a concrete permission check. -/
theorem defaultRoles_canonical_witness :
    AuthContext.HasPermission
      ⟨NilObjectID, NilObjectID, "Ghost", defaultPermissionsFor "Ghost", false, false⟩
      "task:create" = false :=
  defaultRoles_canonical.2.2.2 "Ghost" (by decide)
    ⟨NilObjectID, NilObjectID, "Ghost", defaultPermissionsFor "Ghost", false, false⟩
    rfl "task:create"

/-- The task the create-task witness scenario produces. -/
def c10Task : Task :=
  ⟨⟨"eeeeeeeeeeeeeeeeeeeeeeee"⟩, "Write the spec", "", "todo",
   ⟨"cccccccccccccccccccccccc"⟩, 7, 7⟩

/-- Witness for C10: a concrete create request yields a task owned by the
requesting context's user id. -/
theorem createTask_owner_is_requester_witness :
    c10Task.userID = c1ctx.userID ∧
    (DB.mk ([] : List User) ([] : List Role) [c10Task]).tasks
      = (DB.mk ([] : List User) ([] : List Role) ([] : List Task)).tasks ++ [c10Task] :=
  createTask_owner_is_requester ⟨[], [], []⟩ c1ctx ⟨"Write the spec", "", ""⟩
    ⟨"eeeeeeeeeeeeeeeeeeeeeeee"⟩ 7 201 c10Task ⟨[], [], [c10Task]⟩ (by decide)

end Taskflow
